import Mathlib

/-!
Shallow embedding of the trip-ledger routes of `src/routes/trip.routes.js`
(Kaicharla/travels-backend-api).  Ids and timestamps are `Nat`, monetary
amounts are `Int` (the service only handles integral amounts), JSON-absent
fields are `Option`.  Each Express handler becomes a pure function from the
caller, the request data and the current store to an HTTP status, the new
store and the response body.
-/

namespace Travels

/-- Caller roles, from the `req.user.role` strings used throughout the routes. -/
inductive Role where
  | admin
  | driver
deriving Repr, DecidableEq

/-- The authenticated caller (`req.user`): role plus id. -/
structure Caller where
  role : Role
  id : Nat
deriving Repr, DecidableEq

/-- A persisted trip document, fields as in the Trip schema and the route code. -/
structure Trip where
  id : Nat
  driverId : Option Nat := none
  vehicleId : Option Nat := none
  driverName : Option String := none
  driverNumber : Option String := none
  vehicleType : Option String := none
  fromLocation : Option String := none
  endLocation : Option String := none
  startDate : Option String := none
  customerName : Option String := none
  customerNumber : Option String := none
  tripAmount : Option Int := none
  fuelAmount : Option String := none
  tolls : Option Int := none
  parkingCharges : Option Int := none
  driverBeta : Option Int := none
  paymentMode : Option String := none
  bookingId : Option String := none
  isDriverDeleted : Bool := false
  driverDeletedAt : Option Nat := none
  driverDeletedBy : Option Nat := none
  createdBy : Option Nat := none
  createdByRole : Option Role := none
deriving Repr, DecidableEq

/-- A request body (`req.body`) for create and update: every field optional. -/
structure Payload where
  driverId : Option Nat := none
  vehicleId : Option Nat := none
  driverName : Option String := none
  driverNumber : Option String := none
  vehicleType : Option String := none
  fromLocation : Option String := none
  endLocation : Option String := none
  startDate : Option String := none
  customerName : Option String := none
  customerNumber : Option String := none
  tripAmount : Option Int := none
  fuelAmount : Option String := none
  tolls : Option Int := none
  parkingCharges : Option Int := none
  driverBeta : Option Int := none
  paymentMode : Option String := none
  bookingId : Option String := none
  isDriverDeleted : Option Bool := none
  driverDeletedAt : Option Nat := none
  driverDeletedBy : Option Nat := none
  createdBy : Option Nat := none
  createdByRole : Option Role := none
deriving Repr, DecidableEq

/-- A Driver record as seen by the reference resolver (id, display name, phone). -/
structure DriverRec where
  id : Nat
  name : String
  phone : String
deriving Repr, DecidableEq

/-- A Vehicle record as seen by the reference resolver (id, type field). -/
structure VehicleRec where
  id : Nat
  vtype : String
deriving Repr, DecidableEq

/-- A Maintenance expense record (`mongoose.model("Maintenance")`): optional
driver reference and `maintenanceCost` field, as read by the stats route. -/
structure MaintenanceRec where
  driver : Option Nat := none
  maintenanceCost : Option Int := none
deriving Repr, DecidableEq

/-- An Ad expense record (`mongoose.model("Ad")`): `amount` field, as read by
the stats route. -/
structure AdRec where
  amount : Option Int := none
deriving Repr, DecidableEq

/-! ## Fuel parsing (GET /trips/stats, lines 100-109) -/

/-- Numeric value of a run of decimal digits (how JS `Number` reads a digit
string such as the regex matches of `/\d+/g`). -/
def digitsVal (cs : List Char) : Nat :=
  cs.foldl (fun n c => 10 * n + (c.toNat - 48)) 0

/-- Leading and trailing whitespace removed, as JS `Number(string)` does
before reading the numeric literal. -/
def jsTrim (cs : List Char) : List Char :=
  ((cs.dropWhile Char.isWhitespace).reverse.dropWhile Char.isWhitespace).reverse

/-- JS `Number(s)` on the string data stored by this service: `none` is `NaN`.
A whitespace-only string is `0`; an optional sign followed by decimal digits
is that integer; any other text is `NaN`.  (Fractional and exotic numeric
literals do not occur in the fuel and amount fields this service stores.) -/
def jsNumberOfChars (cs : List Char) : Option Int :=
  match jsTrim cs with
  | [] => some 0
  | '+' :: ds => if !ds.isEmpty && ds.all Char.isDigit then some (digitsVal ds) else none
  | '-' :: ds => if !ds.isEmpty && ds.all Char.isDigit then some (-(digitsVal ds : Int)) else none
  | ds => if ds.all Char.isDigit then some (digitsVal ds) else none

/-- JS `Number` on a whole string. -/
def jsNumber (s : String) : Option Int :=
  jsNumberOfChars s.data

/-- The maximal runs of decimal digits of a character list, in order: the
matches of the JS regex `/\d+/g` (`acc` holds the current run, reversed). -/
def digitRunsGo : List Char → List Char → List (List Char)
  | [], acc => if acc.isEmpty then [] else [acc.reverse]
  | c :: rest, acc =>
    if c.isDigit then digitRunsGo rest (c :: acc)
    else if acc.isEmpty then digitRunsGo rest []
    else acc.reverse :: digitRunsGo rest []

/-- `s.match(/\d+/g)` as a list of digit runs (empty list when the regex
returns `null`). -/
def digitRuns (s : String) : List (List Char) :=
  digitRunsGo s.data []

/-- Sum of the digit runs of a string:
`matches.map(Number).reduce((a,b)=>a+b,0)`, and `0` when there is no match. -/
def digitRunSum (s : String) : Int :=
  ((digitRuns s).map fun r => (digitsVal r : Int)).sum

/-- Fuel for one trip, lines 100-109 of the stats route: `0` when
`trip.fuelAmount` is falsy (absent or empty), the direct numeric value when
`Number(trip.fuelAmount)` is not `NaN`, otherwise the sum of the digit runs. -/
def fuelValue : Option String → Int
  | none => 0
  | some s =>
    if s = "" then 0
    else
      match jsNumber s with
      | some n => n
      | none => digitRunSum s

/-! ## Reference resolver -/

/-- Modelled from the spec: `attachRefs` lives in `src/utils/tripHelpers.js`,
which is not among the provided sources.  Spec section 4.2: when
`payload.driverId` is present the Driver is fetched by id; if missing the
whole call fails with NotFound, otherwise its display and contact fields are
copied into the snapshot fields of the payload.  `none` is the NotFound
failure. -/
def attachDriverRef (drivers : List DriverRec) (p : Payload) : Option Payload :=
  match p.driverId with
  | none => some p
  | some did =>
    match drivers.find? fun d => d.id == did with
    | none => none
    | some d => some { p with driverName := some d.name, driverNumber := some d.phone }

/-- Modelled from the spec: the vehicle half of `attachRefs` (spec section
4.2), symmetric to `attachDriverRef` against the Vehicle store. -/
def attachVehicleRef (vehicles : List VehicleRec) (p : Payload) : Option Payload :=
  match p.vehicleId with
  | none => some p
  | some vid =>
    match vehicles.find? fun v => v.id == vid with
    | none => none
    | some v => some { p with vehicleType := some v.vtype }

/-- Modelled from the spec: `attachRefs(payload)` resolves the driver
reference and then the vehicle reference (spec section 4.2 makes the two
resolutions independent, so the order is immaterial); either failure aborts
the whole call. -/
def attachRefs (drivers : List DriverRec) (vehicles : List VehicleRec)
    (p : Payload) : Option Payload :=
  (attachDriverRef drivers p).bind (attachVehicleRef vehicles)

/-! ## Store primitives -/

/-- `Trip.findById`: first document whose id matches. -/
def findById (store : List Trip) (tid : Nat) : Option Trip :=
  store.find? fun t => t.id == tid

/-- `trip.save()` on a fetched document: the document with that id is
replaced by the updated one (ids are unique in the store). -/
def updateById : List Trip → Nat → Trip → List Trip
  | [], _, _ => []
  | t :: rest, tid, t' =>
    if t.id == tid then t' :: rest else t :: updateById rest tid t'

/-- `Trip.findByIdAndDelete`: the document with that id is removed. -/
def removeById (store : List Trip) (tid : Nat) : List Trip :=
  store.filter fun t => t.id != tid

/-- Modelled from the spec: the Trip schema (`src/models/trips`) is not among
the provided sources.  `new Trip(data)` takes the payload fields, with the
schema defaults of spec section 3: `isDriverDeleted` defaults to `false`,
the delete timestamp and deleter are nullable. -/
def mkTrip (newId : Nat) (p : Payload) : Trip :=
  { id := newId
    driverId := p.driverId
    vehicleId := p.vehicleId
    driverName := p.driverName
    driverNumber := p.driverNumber
    vehicleType := p.vehicleType
    fromLocation := p.fromLocation
    endLocation := p.endLocation
    startDate := p.startDate
    customerName := p.customerName
    customerNumber := p.customerNumber
    tripAmount := p.tripAmount
    fuelAmount := p.fuelAmount
    tolls := p.tolls
    parkingCharges := p.parkingCharges
    driverBeta := p.driverBeta
    paymentMode := p.paymentMode
    bookingId := p.bookingId
    isDriverDeleted := p.isDriverDeleted.getD false
    driverDeletedAt := p.driverDeletedAt
    driverDeletedBy := p.driverDeletedBy
    createdBy := p.createdBy
    createdByRole := p.createdByRole }

/-- `Object.assign` semantics for one field: a key present in the update
payload overwrites, an absent key keeps the stored value. -/
def assignField (new old : Option α) : Option α :=
  match new with
  | some v => some v
  | none => old

/-- `Object.assign(trip, updates)` followed by `trip.save()`: every field
present in the update payload overwrites the stored field. -/
def applyUpdates (t : Trip) (u : Payload) : Trip :=
  { id := t.id
    driverId := assignField u.driverId t.driverId
    vehicleId := assignField u.vehicleId t.vehicleId
    driverName := assignField u.driverName t.driverName
    driverNumber := assignField u.driverNumber t.driverNumber
    vehicleType := assignField u.vehicleType t.vehicleType
    fromLocation := assignField u.fromLocation t.fromLocation
    endLocation := assignField u.endLocation t.endLocation
    startDate := assignField u.startDate t.startDate
    customerName := assignField u.customerName t.customerName
    customerNumber := assignField u.customerNumber t.customerNumber
    tripAmount := assignField u.tripAmount t.tripAmount
    fuelAmount := assignField u.fuelAmount t.fuelAmount
    tolls := assignField u.tolls t.tolls
    parkingCharges := assignField u.parkingCharges t.parkingCharges
    driverBeta := assignField u.driverBeta t.driverBeta
    paymentMode := assignField u.paymentMode t.paymentMode
    bookingId := assignField u.bookingId t.bookingId
    isDriverDeleted := u.isDriverDeleted.getD t.isDriverDeleted
    driverDeletedAt := assignField u.driverDeletedAt t.driverDeletedAt
    driverDeletedBy := assignField u.driverDeletedBy t.driverDeletedBy
    createdBy := assignField u.createdBy t.createdBy
    createdByRole := assignField u.createdByRole t.createdByRole }

/-- The five `delete updates.x` statements of the driver branch of the update
route: lifecycle and authorship keys are removed from the update payload. -/
def stripDriverForbidden (u : Payload) : Payload :=
  { u with
    isDriverDeleted := none
    driverDeletedAt := none
    driverDeletedBy := none
    createdBy := none
    createdByRole := none }

/-- Outcome of one route call: HTTP status, the store afterwards, and the
trip document of the response body when the route returns one. -/
structure RouteResult where
  status : Nat
  store : List Trip
  body : Option Trip
deriving Repr, DecidableEq

/-! ## Route handlers (`src/routes/trip.routes.js`) -/

/-- POST / (lines 12-45): stamp authorship; admins enrich when a driver or
vehicle id is present; drivers get `driverId` forced to their own id and
enrich when a vehicle id is present; resolver failure is caught as 400 and
nothing is persisted; otherwise the new trip is appended and 201 returned. -/
def createTrip (c : Caller) (drivers : List DriverRec) (vehicles : List VehicleRec)
    (newId : Nat) (body : Payload) (store : List Trip) : RouteResult :=
  let data := { body with createdByRole := some c.role, createdBy := some c.id }
  match c.role with
  | Role.admin =>
    let enriched :=
      if data.driverId.isSome || data.vehicleId.isSome then
        attachRefs drivers vehicles data
      else some data
    match enriched with
    | none => ⟨400, store, none⟩
    | some d => ⟨201, store ++ [mkTrip newId d], some (mkTrip newId d)⟩
  | Role.driver =>
    let data := { data with driverId := some c.id }
    let enriched :=
      if data.vehicleId.isSome then attachRefs drivers vehicles data
      else some data
    match enriched with
    | none => ⟨400, store, none⟩
    | some d => ⟨201, store ++ [mkTrip newId d], some (mkTrip newId d)⟩

/-- The listing and stats match (lines 52-57 and 72-76): soft-deleted trips
are excluded, and a driver caller only matches trips carrying their own id. -/
def visibleMatch (c : Caller) (t : Trip) : Bool :=
  !t.isDriverDeleted && (c.role == Role.admin || t.driverId == some (c.id))

/-- GET / (lines 49-66): the rows matching `visibleMatch`.  The route sorts
the rows by the requested key, which permutes the result but never changes
membership; the model returns the rows in store order. -/
def listTrips (c : Caller) (store : List Trip) : List Trip :=
  store.filter (visibleMatch c)

/-- GET /:id (lines 147-163): 404 when absent; a driver probing a foreign
trip gets 403; a driver reading an own soft-deleted trip without
`includeDeleted=true` gets 404; otherwise the trip. -/
def getTripById (c : Caller) (includeDeleted : Bool) (store : List Trip)
    (tid : Nat) : RouteResult :=
  match findById store tid with
  | none => ⟨404, store, none⟩
  | some trip =>
    if c.role = Role.driver ∧ trip.driverId ≠ some c.id then ⟨403, store, none⟩
    else if c.role = Role.driver ∧ trip.isDriverDeleted = true ∧ includeDeleted ≠ true then
      ⟨404, store, none⟩
    else ⟨200, store, some trip⟩

/-- PUT /:id (lines 166-194): 404 when absent; a driver touching a foreign
trip gets 403; the body is enriched when it carries a driver or vehicle id
(failure caught as 400, nothing saved); drivers lose the lifecycle and
authorship keys; the remaining keys are assigned onto the trip and saved. -/
def updateTrip (c : Caller) (drivers : List DriverRec) (vehicles : List VehicleRec)
    (store : List Trip) (tid : Nat) (body : Payload) : RouteResult :=
  match findById store tid with
  | none => ⟨404, store, none⟩
  | some trip =>
    if c.role = Role.driver ∧ trip.driverId ≠ some c.id then ⟨403, store, none⟩
    else
      let enriched :=
        if body.driverId.isSome || body.vehicleId.isSome then
          attachRefs drivers vehicles body
        else some body
      match enriched with
      | none => ⟨400, store, none⟩
      | some u0 =>
        let u := if c.role = Role.driver then stripDriverForbidden u0 else u0
        let trip' := applyUpdates trip u
        ⟨200, updateById store tid trip', some trip'⟩

/-- DELETE /:id (lines 197-229): 404 when absent.  A driver may only touch
their own trip (else 403) and always soft-deletes: when not yet deleted the
lifecycle flags and `driverDeletedBy` are set and saved, and success is
returned either way.  An admin hard-deletes only under `hard=true`;
otherwise the flags (without `driverDeletedBy`) are set when not yet deleted
and the document saved. -/
def deleteTrip (c : Caller) (hard : Bool) (now : Nat) (store : List Trip)
    (tid : Nat) : RouteResult :=
  match findById store tid with
  | none => ⟨404, store, none⟩
  | some trip =>
    match c.role with
    | Role.driver =>
      if trip.driverId ≠ some c.id then ⟨403, store, none⟩
      else if trip.isDriverDeleted = false then
        let trip' := { trip with
          isDriverDeleted := true
          driverDeletedAt := some now
          driverDeletedBy := some c.id }
        ⟨200, updateById store tid trip', some trip'⟩
      else ⟨200, store, some trip⟩
    | Role.admin =>
      if hard then ⟨200, removeById store tid, none⟩
      else
        let trip' :=
          if trip.isDriverDeleted = false then
            { trip with isDriverDeleted := true, driverDeletedAt := some now }
          else trip
        ⟨200, updateById store tid trip', some trip'⟩

/-- POST /:id/restore (lines 233-247): non-admins get 403 before any lookup;
404 when absent; otherwise the lifecycle flags are cleared and saved. -/
def restoreTrip (c : Caller) (store : List Trip) (tid : Nat) : RouteResult :=
  if c.role ≠ Role.admin then ⟨403, store, none⟩
  else
    match findById store tid with
    | none => ⟨404, store, none⟩
    | some trip =>
      let trip' := { trip with
        isDriverDeleted := false
        driverDeletedAt := none
        driverDeletedBy := none }
      ⟨200, updateById store tid trip', some trip'⟩

/-! ## Stats aggregation (GET /trips/stats, lines 70-143) -/

/-- The response record of the stats route. -/
structure Stats where
  totalTrips : Nat
  totalTripAmount : Int
  totalExpenses : Int
  totalMaintenance : Int
  totalAds : Int
  totalProfit : Int
deriving Repr, DecidableEq

/-- Per-trip expenses (line 111): fuel plus tolls, parking charges and driver
beta, each `0` when absent. -/
def tripExpenses (t : Trip) : Int :=
  fuelValue t.fuelAmount + t.tolls.getD 0 + t.parkingCharges.getD 0 + t.driverBeta.getD 0

/-- GET /stats (lines 70-143): the visible trips are the non-deleted ones
(drivers only their own); maintenance records are filtered to the driver for
driver callers; ads are company-wide; and the profit is recomputed once from
the final totals (line 128). -/
def computeStats (c : Caller) (trips : List Trip)
    (maints : List MaintenanceRec) (ads : List AdRec) : Stats :=
  let visible := trips.filter (visibleMatch c)
  let visibleMaints : List MaintenanceRec :=
    match c.role with
    | Role.driver => maints.filter fun m => m.driver == some (c.id)
    | Role.admin => maints
  let totalTrips := visible.length
  let totalTripAmount := (visible.map fun t => t.tripAmount.getD 0).sum
  let tripsExpenses := (visible.map tripExpenses).sum
  let totalMaintenance := (visibleMaints.map fun m => m.maintenanceCost.getD 0).sum
  let totalAds := (ads.map fun a => a.amount.getD 0).sum
  let totalExpenses := tripsExpenses + totalMaintenance + totalAds
  ⟨totalTrips, totalTripAmount, totalExpenses, totalMaintenance, totalAds,
    totalTripAmount - totalExpenses⟩

/-! ## Derived and concrete inputs used by the verification -/

/-- The fuel policy exactly as the specification words it: 0 when the field
is absent, the direct numeric value when the whole string parses as a
number, otherwise the sum of the maximal digit runs.  Stated from the spec
wording for comparison with `fuelValue`, which is translated from the code. -/
def specFuelPolicy : Option String → Int
  | none => 0
  | some s =>
    match jsNumber s with
    | some n => n
    | none => digitRunSum s

/-- The DriverDeleted marking the driver delete branch writes: flag set,
timestamp recorded, deleter recorded. -/
def markDriverDeleted (now deleter : Nat) (t : Trip) : Trip :=
  { t with
    isDriverDeleted := true
    driverDeletedAt := some now
    driverDeletedBy := some deleter }

/-- The cleared lifecycle state the restore route writes: flag unset, both
delete marks null. -/
def clearDriverDeleted (t : Trip) : Trip :=
  { t with
    isDriverDeleted := false
    driverDeletedAt := none
    driverDeletedBy := none }

/-- The two trips of the stats scenario quoted by the spec: amounts 1000 and
2000, fuel strings 300 and 1 x 50, tolls 0 and 20. -/
def c4Store : List Trip :=
  [{ id := 1, tripAmount := some 1000, fuelAmount := some "300", tolls := some 0 },
   { id := 2, tripAmount := some 2000, fuelAmount := some "1 x 50", tolls := some 20 }]

/-- An already-DriverDeleted trip of driver 7, marks set at time 4. -/
def c6Trip : Trip :=
  { id := 3
    driverId := some 7
    isDriverDeleted := true
    driverDeletedAt := some 4
    driverDeletedBy := some 7 }

/-- An already-DriverDeleted trip, marks set at time 4 by caller 5. -/
def c7Trip : Trip :=
  { id := 2
    isDriverDeleted := true
    driverDeletedAt := some 4
    driverDeletedBy := some 5 }

/-- A trip owned by driver 1, as stored before an update. -/
def c2OwnTrip : Trip :=
  { id := 4
    driverId := some 1 }

/-- A driver collection holding a second driver, id 2. -/
def c2Drivers : List DriverRec :=
  [{ id := 2, name := "B", phone := "777" }]

/-- An update payload that smuggles in the other driver id. -/
def c2Body : Payload :=
  { driverId := some 2 }

/-- The driver collection holding the caller of the C9 scenario. -/
def c9Drivers : List DriverRec :=
  [{ id := 1, name := "Asha", phone := "9990001111" }]

/-- The vehicle collection of the C9 scenario. -/
def c9Vehicles : List VehicleRec :=
  [{ id := 5, vtype := "SUV" }]

/-- A driver-create payload that selects vehicle 5 and carries no snapshot
fields of its own. -/
def c9Body : Payload :=
  { vehicleId := some 5
    fromLocation := some "Chennai"
    tripAmount := some 100 }

/-! ## Store lemmas -/

/-- The document `findById` returns carries the id that was looked up. -/
theorem findById_id {store : List Trip} {tid : Nat} {t : Trip}
    (h : findById store tid = some t) : t.id = tid := by
  have h0 : List.find? (fun x => x.id == tid) store = some t := h
  have h' : (t.id == tid) = true := @List.find?_some _ (fun x => x.id == tid) t store h0
  simpa using h'

/-- Saving an updated document with the looked-up id makes `findById` return
the update. -/
theorem findById_updateById {store : List Trip} {tid : Nat} {t t' : Trip}
    (h : findById store tid = some t) (hid : t'.id = tid) :
    findById (updateById store tid t') tid = some t' := by
  induction store with
  | nil => simp [findById] at h
  | cons a rest ih =>
    by_cases ha : (a.id == tid) = true
    · unfold updateById
      rw [if_pos ha]
      unfold findById
      exact @List.find?_cons_of_pos _ (fun x => x.id == tid) t' rest (by simpa using hid)
    · unfold updateById
      rw [if_neg ha]
      unfold findById at h ⊢
      rw [@List.find?_cons_of_neg _ (fun x => x.id == tid) a rest ha] at h
      rw [@List.find?_cons_of_neg _ (fun x => x.id == tid) a (updateById rest tid t') ha]
      exact ih h

/-- Saving back the very document that was fetched leaves the store as it
was. -/
theorem updateById_self {store : List Trip} {tid : Nat} {t : Trip}
    (h : findById store tid = some t) : updateById store tid t = store := by
  induction store with
  | nil => rfl
  | cons a rest ih =>
    by_cases ha : (a.id == tid) = true
    · have hat : t = a := by
        unfold findById at h
        rw [@List.find?_cons_of_pos _ (fun x => x.id == tid) a rest ha] at h
        exact (Option.some.inj h).symm
      unfold updateById
      rw [if_pos ha, hat]
    · unfold updateById
      rw [if_neg ha]
      unfold findById at h
      rw [@List.find?_cons_of_neg _ (fun x => x.id == tid) a rest ha] at h
      rw [ih h]

/-- Saving an updated document never changes how many documents the store
holds. -/
theorem updateById_length (store : List Trip) (tid : Nat) (t' : Trip) :
    (updateById store tid t').length = store.length := by
  induction store with
  | nil => rfl
  | cons a rest ih =>
    by_cases ha : (a.id == tid) = true
    · unfold updateById; rw [if_pos ha]; simp
    · unfold updateById; rw [if_neg ha]; simpa using ih

/-! ## Resolver lemmas -/

/-- Driver-reference resolution never changes the `driverId` it resolved. -/
theorem attachDriverRef_driverId {ds : List DriverRec} {p q : Payload}
    (h : attachDriverRef ds p = some q) : q.driverId = p.driverId := by
  unfold attachDriverRef at h
  split at h
  · rw [← Option.some.inj h]
  · split at h
    · exact absurd h (by simp)
    · rw [← Option.some.inj h]

/-- Vehicle-reference resolution never touches `driverId`. -/
theorem attachVehicleRef_driverId {vs : List VehicleRec} {p q : Payload}
    (h : attachVehicleRef vs p = some q) : q.driverId = p.driverId := by
  unfold attachVehicleRef at h
  split at h
  · rw [← Option.some.inj h]
  · split at h
    · exact absurd h (by simp)
    · rw [← Option.some.inj h]

/-- `attachRefs` only writes snapshot fields: the `driverId` of a successful
enrichment is the `driverId` of the input payload. -/
theorem attachRefs_driverId {ds : List DriverRec} {vs : List VehicleRec} {p q : Payload}
    (h : attachRefs ds vs p = some q) : q.driverId = p.driverId := by
  unfold attachRefs at h
  cases hd : attachDriverRef ds p with
  | none => rw [hd] at h; exact absurd h (by simp)
  | some p1 =>
    rw [hd] at h
    have h1 := attachDriverRef_driverId hd
    have h2 := attachVehicleRef_driverId (by simpa using h)
    rw [h2, h1]

/-- The conditional enrichment step shared by the create and update routes
keeps the `driverId` of the payload it enriches. -/
theorem enriched_driverId {ds : List DriverRec} {vs : List VehicleRec}
    {p : Payload} {b : Bool} {q : Payload}
    (h : (if b then attachRefs ds vs p else some p) = some q) :
    q.driverId = p.driverId := by
  split at h
  · exact attachRefs_driverId h
  · rw [← Option.some.inj h]

/-! ## Claim theorems -/

/-- C1 (counterexample): the claim says a driver probing a foreign trip gets
HTTP 404, indistinguishable from a nonexistent trip.  On a concrete store
holding trip 9 of driver 2, a caller with role driver and id 1 gets 403 from
the single-trip fetch, update and delete routes — not 404, hence
distinguishable from the nonexistent-trip response. -/
theorem c1_driver_cross_access_is_403_not_404 :
    (getTripById ⟨Role.driver, 1⟩ false [{ id := 9, driverId := some 2 }] 9).status = 403 ∧
    (getTripById ⟨Role.driver, 1⟩ false [{ id := 9, driverId := some 2 }] 9).status ≠ 404 ∧
    (updateTrip ⟨Role.driver, 1⟩ [] [] [{ id := 9, driverId := some 2 }] 9 {}).status = 403 ∧
    (deleteTrip ⟨Role.driver, 1⟩ true 0 [{ id := 9, driverId := some 2 }] 9).status = 403 ∧
    (getTripById ⟨Role.driver, 1⟩ false ([] : List Trip) 9).status = 404 := by
  refine ⟨rfl, by decide, rfl, rfl, rfl⟩

/-- C1 (amended): for every driver-role caller and every stored trip whose
`driverId` differs from the caller id, the single-trip fetch, update and
delete routes fail with HTTP 403 (Forbidden) — distinguishable from the 404
returned for a nonexistent trip — and leave the store unchanged. -/
theorem driver_cross_access_forbidden
    (c : Caller) (drivers : List DriverRec) (vehicles : List VehicleRec)
    (store : List Trip) (tid : Nat) (trip : Trip) (incl hard : Bool) (now : Nat)
    (body : Payload)
    (h1 : c.role = Role.driver) (h2 : findById store tid = some trip)
    (h3 : trip.driverId ≠ some c.id) :
    getTripById c incl store tid = ⟨403, store, none⟩ ∧
    updateTrip c drivers vehicles store tid body = ⟨403, store, none⟩ ∧
    deleteTrip c hard now store tid = ⟨403, store, none⟩ := by
  refine ⟨?_, ?_, ?_⟩
  · simp [getTripById, h2, h1, h3]
  · simp [updateTrip, h2, h1, h3]
  · simp [deleteTrip, h2, h1, h3]

/-- C1 (witness): the amended theorem applied to the concrete store holding
trip 9 of driver 2 and a driver caller with id 1. -/
theorem driver_cross_access_forbidden_witness :
    getTripById ⟨Role.driver, 1⟩ false [{ id := 9, driverId := some 2 }] 9
      = ⟨403, [{ id := 9, driverId := some 2 }], none⟩ ∧
    updateTrip ⟨Role.driver, 1⟩ [] [] [{ id := 9, driverId := some 2 }] 9 {}
      = ⟨403, [{ id := 9, driverId := some 2 }], none⟩ ∧
    deleteTrip ⟨Role.driver, 1⟩ true 0 [{ id := 9, driverId := some 2 }] 9
      = ⟨403, [{ id := 9, driverId := some 2 }], none⟩ :=
  driver_cross_access_forbidden ⟨Role.driver, 1⟩ [] [] [{ id := 9, driverId := some 2 }]
    9 { id := 9, driverId := some 2 } false true 0 {} rfl rfl (by decide)

/-- C3: the fuel value of the stats route computes exactly the policy worded
by the spec, and on the three quoted inputs: the string 500 gives 500, the
free-text note gives 2+100+50 = 152, an absent field gives 0. -/
theorem fuel_parsing_policy :
    (∀ fa, fuelValue fa = specFuelPolicy fa) ∧
    fuelValue (some "500") = 500 ∧
    fuelValue (some "2 liters @100 plus 50 toll note") = 152 ∧
    fuelValue none = 0 := by
  refine ⟨?_, by decide, by decide, rfl⟩
  intro fa
  cases fa with
  | none => rfl
  | some s =>
    by_cases hs : s = ""
    · subst hs; rfl
    · simp [fuelValue, specFuelPolicy, hs]

/-- C4 (counterexample): on the quoted scenario the stats route does not
return totalExpenses 370 and totalProfit 2630: the digit-run parse of the
string 1 x 50 sums 1 and 50 to 51, not 50. -/
theorem c4_quoted_totals_are_wrong :
    ¬ ((computeStats ⟨Role.admin, 0⟩ c4Store [] []).totalExpenses = 370 ∧
       (computeStats ⟨Role.admin, 0⟩ c4Store [] []).totalProfit = 2630) := by
  decide

/-- C4 (amended): on the quoted scenario the stats route returns two trips,
totalTripAmount 3000, a fuel contribution of 351 (300 plus the digit-run sum
51 of the string 1 x 50), totalExpenses 371 and totalProfit 2629. -/
theorem c4_stats_scenario :
    computeStats ⟨Role.admin, 0⟩ c4Store [] [] = ⟨2, 3000, 371, 0, 0, 2629⟩ ∧
    fuelValue (some "300") + fuelValue (some "1 x 50") = 351 := by
  refine ⟨by decide, by decide⟩

/-- C5: a driver deleting their own trip never removes the record, whatever
the hard directive says: the route answers 200, the record is still found in
the store (marked DriverDeleted, with the original marks kept when it was
already deleted), and the store holds as many documents as before. -/
theorem driver_delete_never_hard
    (c : Caller) (hard : Bool) (now : Nat) (store : List Trip) (tid : Nat) (trip : Trip)
    (h1 : c.role = Role.driver) (h2 : findById store tid = some trip)
    (h3 : trip.driverId = some c.id) :
    (deleteTrip c hard now store tid).status = 200 ∧
    findById (deleteTrip c hard now store tid).store tid =
      some (if trip.isDriverDeleted then trip else markDriverDeleted now c.id trip) ∧
    (if trip.isDriverDeleted then trip
     else markDriverDeleted now c.id trip).isDriverDeleted = true ∧
    (deleteTrip c hard now store tid).store.length = store.length := by
  cases hdel : trip.isDriverDeleted with
  | false =>
    have hres : deleteTrip c hard now store tid =
        ⟨200, updateById store tid (markDriverDeleted now c.id trip),
          some (markDriverDeleted now c.id trip)⟩ := by
      simp [deleteTrip, h2, h1, h3, hdel, markDriverDeleted]
    refine ⟨by rw [hres], ?_, by simp [hdel, markDriverDeleted],
      by rw [hres]; exact updateById_length _ _ _⟩
    rw [hres]
    simp only [hdel, if_false]
    have hid : trip.id = tid := findById_id h2
    exact findById_updateById h2 hid
  | true =>
    have hres : deleteTrip c hard now store tid = ⟨200, store, some trip⟩ := by
      simp [deleteTrip, h2, h1, h3, hdel]
    refine ⟨by rw [hres], ?_, by simp [hdel], by rw [hres]⟩
    rw [hres]
    simpa [hdel] using h2

/-- C5 (witness): the theorem applied to driver 7 deleting their own active
trip 3 with the hard directive set. -/
theorem driver_delete_never_hard_witness :
    (deleteTrip ⟨Role.driver, 7⟩ true 11 [{ id := 3, driverId := some 7 }] 3).status = 200 ∧
    findById (deleteTrip ⟨Role.driver, 7⟩ true 11 [{ id := 3, driverId := some 7 }] 3).store 3 =
      some (if ({ id := 3, driverId := some 7 } : Trip).isDriverDeleted
            then { id := 3, driverId := some 7 }
            else markDriverDeleted 11 7 { id := 3, driverId := some 7 }) ∧
    (if ({ id := 3, driverId := some 7 } : Trip).isDriverDeleted
     then ({ id := 3, driverId := some 7 } : Trip)
     else markDriverDeleted 11 7 { id := 3, driverId := some 7 }).isDriverDeleted = true ∧
    (deleteTrip ⟨Role.driver, 7⟩ true 11 [{ id := 3, driverId := some 7 }] 3).store.length
      = [({ id := 3, driverId := some 7 } : Trip)].length :=
  driver_delete_never_hard ⟨Role.driver, 7⟩ true 11 [{ id := 3, driverId := some 7 }] 3
    { id := 3, driverId := some 7 } rfl rfl rfl

/-- C6: re-deleting an already-DriverDeleted trip — by its owning driver, or
by an admin without the hard directive — answers 200 and returns the store
exactly as it was, so every lifecycle mark, `driverDeletedAt` included, is
unchanged and the state equals the state after the first delete. -/
theorem soft_delete_idempotent
    (c : Caller) (hard : Bool) (now : Nat) (store : List Trip) (tid : Nat) (trip : Trip)
    (h2 : findById store tid = some trip) (hdel : trip.isDriverDeleted = true)
    (hauth : (c.role = Role.driver ∧ trip.driverId = some c.id) ∨
             (c.role = Role.admin ∧ hard = false)) :
    deleteTrip c hard now store tid = ⟨200, store, some trip⟩ := by
  rcases hauth with ⟨hr, hown⟩ | ⟨hr, hh⟩
  · simp [deleteTrip, h2, hr, hown, hdel]
  · simp [deleteTrip, h2, hr, hh, hdel, updateById_self h2]

/-- C6 (witness): the theorem applied twice, once for the owning driver and
once for an admin soft delete, to an already-deleted trip whose marks were
set at time 4. -/
theorem soft_delete_idempotent_witness :
    deleteTrip ⟨Role.driver, 7⟩ true 9 [c6Trip] 3 = ⟨200, [c6Trip], some c6Trip⟩ :=
  soft_delete_idempotent ⟨Role.driver, 7⟩ true 9 [c6Trip] 3 c6Trip
    rfl rfl (Or.inl ⟨rfl, rfl⟩)

/-- C7: restore is admin-only.  Every non-admin caller gets 403 with the
store — hence every lifecycle field — untouched; an admin restoring a found
trip gets 200 and the saved document has `isDriverDeleted` false and both
delete marks cleared to null. -/
theorem restore_admin_only (c : Caller) (store : List Trip) (tid : Nat) :
    (c.role ≠ Role.admin → restoreTrip c store tid = ⟨403, store, none⟩) ∧
    (∀ trip, c.role = Role.admin → findById store tid = some trip →
      restoreTrip c store tid =
        ⟨200, updateById store tid (clearDriverDeleted trip),
          some (clearDriverDeleted trip)⟩) := by
  constructor
  · intro h
    simp [restoreTrip, h]
  · intro trip hr hf
    simp [restoreTrip, hr, hf, clearDriverDeleted]

/-- C7 (witness): the theorem applied to a driver caller (403, store
untouched) and to an admin caller restoring the deleted trip 2. -/
theorem restore_admin_only_witness :
    restoreTrip ⟨Role.driver, 5⟩ [c7Trip] 2 = ⟨403, [c7Trip], none⟩ ∧
    restoreTrip ⟨Role.admin, 0⟩ [c7Trip] 2
      = ⟨200, updateById [c7Trip] 2 (clearDriverDeleted c7Trip),
          some (clearDriverDeleted c7Trip)⟩ :=
  ⟨(restore_admin_only ⟨Role.driver, 5⟩ [c7Trip] 2).1 (by decide),
   (restore_admin_only ⟨Role.admin, 0⟩ [c7Trip] 2).2 c7Trip rfl rfl⟩

/-- C8: a trip whose `isDriverDeleted` flag is set is never among the rows
of the default listing, for any caller of either role, and contributes to no
total of the stats route: adding such a trip to the store leaves the whole
stats record unchanged. -/
theorem deleted_trip_excluded (c : Caller) (t : Trip) (store : List Trip)
    (maints : List MaintenanceRec) (ads : List AdRec)
    (h : t.isDriverDeleted = true) :
    t ∉ listTrips c store ∧
    computeStats c (t :: store) maints ads = computeStats c store maints ads := by
  have hm : visibleMatch c t = false := by simp [visibleMatch, h]
  constructor
  · intro hmem
    have hmem' := List.mem_filter.mp hmem
    rw [hm] at hmem'
    exact absurd hmem'.2 (by simp)
  · unfold computeStats
    rw [List.filter_cons_of_neg (by simp [hm])]

/-- C8 (witness): the theorem applied to a soft-deleted trip 1 next to an
active trip 2, for an admin caller. -/
theorem deleted_trip_excluded_witness :
    ({ id := 1, isDriverDeleted := true } : Trip)
        ∉ listTrips ⟨Role.admin, 0⟩ [{ id := 2 }] ∧
    computeStats ⟨Role.admin, 0⟩ ({ id := 1, isDriverDeleted := true } :: [{ id := 2 }]) [] []
      = computeStats ⟨Role.admin, 0⟩ [{ id := 2 }] [] [] :=
  deleted_trip_excluded ⟨Role.admin, 0⟩ { id := 1, isDriverDeleted := true }
    [{ id := 2 }] [] [] rfl

/-- C2 (counterexample): the update route does not strip `driverId` from a
driver's payload.  Driver 1, updating their own trip 4 with a payload
carrying driverId 2 (an existing driver), gets 200 and both the response
body and the stored document now carry driverId 2. -/
theorem c2_driver_reassigns_driverId :
    (updateTrip ⟨Role.driver, 1⟩ c2Drivers [] [c2OwnTrip] 4 c2Body).status = 200 ∧
    ((updateTrip ⟨Role.driver, 1⟩ c2Drivers [] [c2OwnTrip] 4 c2Body).body.map
      fun t => t.driverId) = some (some 2) ∧
    ((findById (updateTrip ⟨Role.driver, 1⟩ c2Drivers [] [c2OwnTrip] 4 c2Body).store 4).map
      fun t => t.driverId) = some (some 2) := by
  refine ⟨rfl, rfl, rfl⟩

/-- C2 (amended): a driver updating their own trip leaves `driverId`
unchanged provided the payload does not itself supply a `driverId`; when it
does, the value is applied after reference resolution (only the lifecycle
and authorship keys are stripped for drivers). -/
theorem driver_update_keeps_driverId_when_unsupplied
    (c : Caller) (drivers : List DriverRec) (vehicles : List VehicleRec)
    (store : List Trip) (tid : Nat) (trip : Trip) (body : Payload)
    (h1 : c.role = Role.driver) (h2 : findById store tid = some trip)
    (h3 : trip.driverId = some c.id) (h4 : body.driverId = none) :
    ((updateTrip c drivers vehicles store tid body).body.all
      fun t => t.driverId == trip.driverId) = true := by
  have hnd : ¬ (c.role = Role.driver ∧ trip.driverId ≠ some c.id) := fun hc => hc.2 h3
  unfold updateTrip
  rw [h2]
  simp only [hnd, if_false]
  split
  · rfl
  · rename_i u0 heq
    have hu0 : u0.driverId = none := (enriched_driverId heq).trans h4
    simp [h1, applyUpdates, stripDriverForbidden, assignField, hu0]

/-- C2 (witness): the amended theorem applied to driver 1 updating their own
trip 4 with a payload that carries no driver id. -/
theorem driver_update_keeps_driverId_when_unsupplied_witness :
    ((updateTrip ⟨Role.driver, 1⟩ [] [] [c2OwnTrip] 4
        { fromLocation := some "Y" }).body.all
      fun t => t.driverId == c2OwnTrip.driverId) = true :=
  driver_update_keeps_driverId_when_unsupplied ⟨Role.driver, 1⟩ [] [] [c2OwnTrip] 4
    c2OwnTrip { fromLocation := some "Y" } rfl rfl rfl rfl

/-- C9 (failing input evaluated): driver 1 creating a trip that selects
vehicle 5, with Driver 1 on record as Asha / 9990001111, gets a persisted
trip whose `driverName` and `driverNumber` are stamped by the resolver —
the claim says only the vehicle snapshot may be attached.  The non-snapshot
payload field still passes through. -/
theorem c9_driver_snapshot_stamped :
    ((createTrip ⟨Role.driver, 1⟩ c9Drivers c9Vehicles 7 c9Body []).body.map
      fun t => (t.driverName, t.driverNumber, t.vehicleType, t.fromLocation))
      = some (some "Asha", some "9990001111", some "SUV", some "Chennai") ∧
    c9Body.driverName = none ∧ c9Body.driverNumber = none := by
  refine ⟨rfl, rfl, rfl⟩

/-- C10: a trip persisted by a driver-role create always carries the caller
id as its `driverId`, whatever the payload supplied. -/
theorem driver_create_forces_own_driverId
    (c : Caller) (drivers : List DriverRec) (vehicles : List VehicleRec)
    (newId : Nat) (body : Payload) (store : List Trip)
    (h1 : c.role = Role.driver) :
    ((createTrip c drivers vehicles newId body store).body.all
      fun t => t.driverId == some c.id) = true := by
  unfold createTrip
  rw [h1]
  simp only []
  split
  · rfl
  · rename_i d heq
    have hd : d.driverId = some c.id := enriched_driverId heq
    simp [mkTrip, hd]

/-- C10 (witness): the theorem applied to driver 3 creating a trip from a
payload that names driver 9. -/
theorem driver_create_forces_own_driverId_witness :
    ((createTrip ⟨Role.driver, 3⟩ [] [] 7 { driverId := some 9 } []).body.all
      fun t => t.driverId == some 3) = true :=
  driver_create_forces_own_driverId ⟨Role.driver, 3⟩ [] [] 7 { driverId := some 9 } [] rfl

end Travels
